import Mathlib

/-!
Verification development for the hope-proto self-describing binary value format
(`hope_proto.h`). The core is a tagged, recursive value model (`argument` and its
variants) with a recursive encode/decode protocol over an abstract typed stream,
plus in-memory accessors (`as`, `field`, `release`) and a struct builder.

The stream is external to the core (spec section 6): the core only calls typed
`stream.write` / `stream.read` operations. We model one stream as a list of typed
tokens, one token per stream call of the source. The payload of a C++ `double` is
carried as its 64-bit pattern, because the core only copies doubles through the
stream and never computes with them.
-/

namespace HopeProto

/-- Stream tokens: each constructor corresponds to one typed `write`/`read`
call the core makes on the stream template parameter. `raw` is a run of bytes
written with `write(ptr, length)` (used by the blob variant). -/
inductive Item where
  | u8 (v : Nat)
  | i32v (v : Int)
  | u64v (v : Nat)
  | f64v (bits : Nat)
  | strv (v : String)
  | u32v (v : Nat)
  | usizev (v : Nat)
  | raw (bs : List Nat)
deriving DecidableEq, Repr

/-- Wire tag vocabulary, from the `e_argument_type` uint8 enumeration
(hope_proto.h lines 22-32), in declaration order. -/
inductive e_argument_type where
  | int32
  | uint64
  | float64
  | string
  | array
  | struct_value
  | file
  | blob
  | count
deriving DecidableEq, Repr

/-- Ordinal value of a tag: the uint8 byte the enum member compiles to. -/
def e_argument_type.toNat : e_argument_type → Nat
  | .int32 => 0
  | .uint64 => 1
  | .float64 => 2
  | .string => 3
  | .array => 4
  | .struct_value => 5
  | .file => 6
  | .blob => 7
  | .count => 8

/-- In-memory value model: one constructor per concrete variant of `argument`.
Scalar variants are the four `argument_generic` aliases (lines 338-345), `blobA`
is `argument_blob`, the five `arr*` constructors are the allowed instantiations
of `array<TStream, TValue>` (the static_assert at lines 258-265 plus the decode
factory at lines 365-378), and `structv` is `argument_struct`. Elements of an
array-of-struct are `argument_struct` objects, so `arrStruct` holds a list of
`Arg` values that are (by the C++ typing) `structv` nodes. -/
inductive Arg where
  | i32 (name : String) (v : Int)
  | u64 (name : String) (v : Nat)
  | f64 (name : String) (bits : Nat)
  | strA (name : String) (v : String)
  | blobA (name : String) (bs : List Nat)
  | arrI32 (name : String) (vs : List Int)
  | arrU64 (name : String) (vs : List Nat)
  | arrF64 (name : String) (vs : List Nat)
  | arrStr (name : String) (vs : List String)
  | arrStruct (name : String) (elems : List Arg)
  | structv (name : String) (children : List Arg)

/-- argument::get_name (line 46). -/
def Arg.get_name : Arg → String
  | .i32 n _ | .u64 n _ | .f64 n _ | .strA n _ | .blobA n _
  | .arrI32 n _ | .arrU64 n _ | .arrF64 n _ | .arrStr n _
  | .arrStruct n _ | .structv n _ => n

mutual

/-- Full serialization of one argument: `argument::write` (lines 52-56) writes
tag, name, payload; `array::write` (lines 284-289) additionally writes the
element-type tag (`array_value_type`, computed by `array::get_type`) between the
outer tag and the name. For an array of structs `get_type` (lines 292-305) tests
`is_base_of` against the raw `TValue`, which is the pointer type
`argument_struct<TStream>*` (the only struct-array instantiation that compiles
and the one the decode factory constructs), so every branch is false and
`get_type` falls through to `e_argument_type::count`: the element-type byte
written for a struct array is 8, not 5. The per-variant `write_value` bodies are
inlined here; `writeValue` below states them separately and
`write_decomposition` proves the two presentations agree. -/
def write : Arg → List Item
  | .i32 n v => [.u8 e_argument_type.int32.toNat, .strv n, .i32v v]
  | .u64 n v => [.u8 e_argument_type.uint64.toNat, .strv n, .u64v v]
  | .f64 n b => [.u8 e_argument_type.float64.toNat, .strv n, .f64v b]
  | .strA n v => [.u8 e_argument_type.string.toNat, .strv n, .strv v]
  | .blobA n bs =>
      [.u8 e_argument_type.blob.toNat, .strv n,
       .u32v (bs.length % 4294967296), .raw bs]
  | .arrI32 n vs =>
      [.u8 e_argument_type.array.toNat, .u8 e_argument_type.int32.toNat,
       .strv n, .usizev vs.length] ++ vs.map Item.i32v
  | .arrU64 n vs =>
      [.u8 e_argument_type.array.toNat, .u8 e_argument_type.uint64.toNat,
       .strv n, .usizev vs.length] ++ vs.map Item.u64v
  | .arrF64 n vs =>
      [.u8 e_argument_type.array.toNat, .u8 e_argument_type.float64.toNat,
       .strv n, .usizev vs.length] ++ vs.map Item.f64v
  | .arrStr n vs =>
      [.u8 e_argument_type.array.toNat, .u8 e_argument_type.string.toNat,
       .strv n, .usizev vs.length] ++ vs.map Item.strv
  | .arrStruct n es =>
      [.u8 e_argument_type.array.toNat, .u8 e_argument_type.count.toNat,
       .strv n, .usizev es.length] ++ writeElems es
  | .structv n cs =>
      [.u8 e_argument_type.struct_value.toNat, .strv n,
       .usizev cs.length] ++ writeList cs

/-- argument_struct::write_values loop (lines 203-208): each child is written
fully self-describing via its own `write`. -/
def writeList : List Arg → List Item
  | [] => []
  | c :: t => write c ++ writeList t

/-- Per-variant `write_value` (payload only, no tag and no name):
`argument_generic::write_value` (lines 123-128), `argument_blob::write_value`
(lines 84-87, note the `uint32_t` cast of the size), `array::write_value`
(lines 307-317), `argument_struct::write_value` (lines 160-162). -/
def writeValue : Arg → List Item
  | .i32 _ v => [.i32v v]
  | .u64 _ v => [.u64v v]
  | .f64 _ b => [.f64v b]
  | .strA _ v => [.strv v]
  | .blobA _ bs => [.u32v (bs.length % 4294967296), .raw bs]
  | .arrI32 _ vs => .usizev vs.length :: vs.map Item.i32v
  | .arrU64 _ vs => .usizev vs.length :: vs.map Item.u64v
  | .arrF64 _ vs => .usizev vs.length :: vs.map Item.f64v
  | .arrStr _ vs => .usizev vs.length :: vs.map Item.strv
  | .arrStruct _ es => .usizev es.length :: writeElems es
  | .structv _ cs => .usizev cs.length :: writeList cs

/-- array-of-struct element loop of `array::write_value` (lines 313-315):
each element is written through `v->write_value(stream)` only, with no tag
and no name of its own. -/
def writeElems : List Arg → List Item
  | [] => []
  | e :: t => writeValue e ++ writeElems t

end

mutual

/-- Value trees whose wire form the decoder can reconstruct: every blob is
shorter than 2^32 bytes (its length is written through a `uint32_t` cast at
line 85, so longer blobs desynchronize the stream), and no array-of-struct
occurs anywhere: the encoder records element-type byte 8 (`count`, see `write`)
for struct arrays, a byte the decode factory's array lambda rejects with a null
result, so an encoded struct array can never be decoded. -/
def wfArg : Arg → Bool
  | .blobA _ bs => bs.length < 4294967296
  | .arrStruct _ _ => false
  | .structv _ cs => wfList cs
  | _ => true

/-- Well-formedness of a list of struct children. -/
def wfList : List Arg → Bool
  | [] => true
  | c :: t => wfArg c && wfList t

/-- Well-formedness of array-of-struct elements: each must be a `structv`
node with well-formed children. This qualifies the decoder's struct-elements
loop (reachable only from a stream carrying element-type byte 5, which the
encoder never produces); the elements' field lists are written by the faithful
`writeElems`. -/
def wfElems : List Arg → Bool
  | [] => true
  | .structv _ cs :: t => wfList cs && wfElems t
  | _ :: _ => false

end

mutual

/-- The decoder's image of a value tree: identical on everything the encoder
can round trip (well-formed trees contain no struct arrays), and on the
decoder's struct-elements loop every element comes back with an empty name,
because `array::write_value` writes only the element's field list and
`array::read_value` default-constructs each element (name `""`) and fills only
its fields (lines 313-315 and 327-331). -/
def normArg : Arg → Arg
  | .structv n cs => .structv n (normList cs)
  | .arrStruct n es => .arrStruct n (normElems es)
  | a => a

/-- Round-trip image of a list of struct children. -/
def normList : List Arg → List Arg
  | [] => []
  | c :: t => normArg c :: normList t

/-- Decode image of array-of-struct elements: names are reset to `""`. The
catch-all branch is unreachable for well-formed element lists. -/
def normElems : List Arg → List Arg
  | [] => []
  | .structv _ cs :: t => .structv "" (normList cs) :: normElems t
  | e :: t => normArg e :: normElems t

end

mutual

/-- Number of nodes of a value tree that the decoder reconstructs through a
recursive call (scalar payload contents and names do not add recursion depth).
Used as the fuel budget of the bounded-recursion embedding of decode. -/
def argWeight : Arg → Nat
  | .structv _ cs => 1 + listWeight cs
  | .arrStruct _ es => 1 + elemsWeight es
  | _ => 1

/-- Fuel budget of a list of struct children. -/
def listWeight : List Arg → Nat
  | [] => 0
  | c :: t => argWeight c + listWeight t

/-- Fuel budget of a list of array-of-struct elements. -/
def elemsWeight : List Arg → Nat
  | [] => 0
  | .structv _ cs :: t => 1 + listWeight cs + elemsWeight t
  | _ :: t => 1 + elemsWeight t

end

/-- Observable outcomes of running the decoder. `badFunctionCall` models
invoking the empty `std::function` that `factory_impl[type]` default-constructs
for a tag with no registry entry (line 382); `assertNullArgument` models
`assert(new_argument)` firing on the null returned by the array factory lambda
for an unknown element tag (lines 377 and 383); `streamMismatch` models a typed
read that does not line up with what was written; `outOfFuel` is an artifact of
the bounded-recursion embedding and is never hit with enough fuel. -/
inductive Crash where
  | badFunctionCall
  | assertNullArgument
  | streamMismatch
  | outOfFuel
deriving DecidableEq, Repr

/-- Sequencing for decoder steps. -/
def bindE {α β : Type} (x : Except Crash α) (f : α → Except Crash β) :
    Except Crash β :=
  match x with
  | .error e => .error e
  | .ok a => f a

/-- Read one tag byte (`stream.read<e_argument_type>()`). -/
def readTag : List Item → Except Crash (Nat × List Item)
  | .u8 v :: s => .ok (v, s)
  | _ => .error .streamMismatch

/-- Read a name (`stream.read(name)` with the string specialization). -/
def readName : List Item → Except Crash (String × List Item)
  | .strv v :: s => .ok (v, s)
  | _ => .error .streamMismatch

/-- Read an int32 payload. -/
def readI32 : List Item → Except Crash (Int × List Item)
  | .i32v v :: s => .ok (v, s)
  | _ => .error .streamMismatch

/-- Read a uint64 payload. -/
def readU64 : List Item → Except Crash (Nat × List Item)
  | .u64v v :: s => .ok (v, s)
  | _ => .error .streamMismatch

/-- Read a float64 payload (its 64-bit pattern). -/
def readF64 : List Item → Except Crash (Nat × List Item)
  | .f64v v :: s => .ok (v, s)
  | _ => .error .streamMismatch

/-- Read a string payload. -/
def readStr : List Item → Except Crash (String × List Item)
  | .strv v :: s => .ok (v, s)
  | _ => .error .streamMismatch

/-- Read a uint32 value (the blob length prefix). -/
def readU32 : List Item → Except Crash (Nat × List Item)
  | .u32v v :: s => .ok (v, s)
  | _ => .error .streamMismatch

/-- Read a size_t value (struct and array element counts). -/
def readUsize : List Item → Except Crash (Nat × List Item)
  | .usizev v :: s => .ok (v, s)
  | _ => .error .streamMismatch

/-- Read a blob body: `stream.read(m_blob.data(), size)` reads exactly the
bytes that were written as this blob; a size disagreement desynchronizes the
stream, modelled as `streamMismatch`. -/
def readRaw (size : Nat) : List Item → Except Crash (List Nat × List Item)
  | .raw bs :: s => if bs.length = size then .ok (bs, s) else .error .streamMismatch
  | _ => .error .streamMismatch

/-- Element loop of `array<TStream,int32_t>::read_value` (lines 322-326). -/
def readI32List : Nat → List Item → Except Crash (List Int × List Item)
  | 0, s => .ok ([], s)
  | n + 1, s =>
    bindE (readI32 s) (fun p =>
    bindE (readI32List n p.2) (fun q => .ok (p.1 :: q.1, q.2)))

/-- Element loop of `array<TStream,uint64_t>::read_value`. -/
def readU64List : Nat → List Item → Except Crash (List Nat × List Item)
  | 0, s => .ok ([], s)
  | n + 1, s =>
    bindE (readU64 s) (fun p =>
    bindE (readU64List n p.2) (fun q => .ok (p.1 :: q.1, q.2)))

/-- Element loop of `array<TStream,double>::read_value`. -/
def readF64List : Nat → List Item → Except Crash (List Nat × List Item)
  | 0, s => .ok ([], s)
  | n + 1, s =>
    bindE (readF64 s) (fun p =>
    bindE (readF64List n p.2) (fun q => .ok (p.1 :: q.1, q.2)))

/-- Element loop of `array<TStream,std::string>::read_value`. -/
def readStrList : Nat → List Item → Except Crash (List String × List Item)
  | 0, s => .ok ([], s)
  | n + 1, s =>
    bindE (readStr s) (fun p =>
    bindE (readStrList n p.2) (fun q => .ok (p.1 :: q.1, q.2)))

/-- The recursive decode loop. `decodeN fuel false n s` decodes `n` consecutive
fully self-describing arguments from `s`, exactly the loop of
`argument_struct::read_values` (lines 210-215) where each iteration calls the
free function `serialize`; `decodeN fuel true n s` decodes `n` array-of-struct
elements, the loop of `array<TStream, argument_struct*>::read_value`
(lines 327-331) where each element is a default-constructed `argument_struct`
(name `""`) filled via its `read_value` only.

One `serialize` call (lines 381-385) reads the tag byte, looks it up in the
factory registry, lets the constructed variant `read` its name and payload, and
recurses for nested data:
  - tags 0-3 (scalars): read name, then the single payload value;
  - tag 5 (struct): read name, then `read_values`: a size_t count and that many
    recursive `serialize` calls;
  - tag 7 (blob): read name, then a uint32 length and the raw bytes;
  - tag 4 (array): the factory lambda first reads the element-type tag
    (line 366) to pick the concrete element-typed array, and only then does
    `read` consume the name; an element tag outside {0,1,2,3,5} makes the
    lambda return nullptr, tripping `assert(new_argument)` (the tag the
    encoder writes for struct arrays is 8, see `write`, so every encoded
    struct array takes this path);
  - tag 6 (`file`) and any tag >= 8: no registry entry exists, so
    `factory_impl[type]` default-constructs an empty `std::function` and
    invoking it throws `std::bad_function_call`.

`fuel` bounds the recursion depth (the embedding of the unbounded C++
recursion); every theorem instantiates it large enough that `outOfFuel` is
unreachable. -/
def decodeN : Nat → Bool → Nat → List Item → Except Crash (List Arg × List Item)
  | _, _, 0, s => .ok ([], s)
  | 0, _, _ + 1, _ => .error .outOfFuel
  | f + 1, true, n + 1, s =>
    bindE (readUsize s) (fun pc =>
    bindE (decodeN f false pc.1 pc.2) (fun pcs =>
    bindE (decodeN f true n pcs.2) (fun pt =>
    .ok (.structv "" pcs.1 :: pt.1, pt.2))))
  | f + 1, false, n + 1, s =>
    bindE (readTag s) (fun pt =>
    match pt.1 with
    | 0 =>
      bindE (readName pt.2) (fun pn =>
      bindE (readI32 pn.2) (fun pv =>
      bindE (decodeN f false n pv.2) (fun pl =>
      .ok (.i32 pn.1 pv.1 :: pl.1, pl.2))))
    | 1 =>
      bindE (readName pt.2) (fun pn =>
      bindE (readU64 pn.2) (fun pv =>
      bindE (decodeN f false n pv.2) (fun pl =>
      .ok (.u64 pn.1 pv.1 :: pl.1, pl.2))))
    | 2 =>
      bindE (readName pt.2) (fun pn =>
      bindE (readF64 pn.2) (fun pv =>
      bindE (decodeN f false n pv.2) (fun pl =>
      .ok (.f64 pn.1 pv.1 :: pl.1, pl.2))))
    | 3 =>
      bindE (readName pt.2) (fun pn =>
      bindE (readStr pn.2) (fun pv =>
      bindE (decodeN f false n pv.2) (fun pl =>
      .ok (.strA pn.1 pv.1 :: pl.1, pl.2))))
    | 5 =>
      bindE (readName pt.2) (fun pn =>
      bindE (readUsize pn.2) (fun pc =>
      bindE (decodeN f false pc.1 pc.2) (fun pcs =>
      bindE (decodeN f false n pcs.2) (fun pl =>
      .ok (.structv pn.1 pcs.1 :: pl.1, pl.2)))))
    | 7 =>
      bindE (readName pt.2) (fun pn =>
      bindE (readU32 pn.2) (fun pc =>
      bindE (readRaw pc.1 pc.2) (fun pb =>
      bindE (decodeN f false n pb.2) (fun pl =>
      .ok (.blobA pn.1 pb.1 :: pl.1, pl.2)))))
    | 4 =>
      bindE (readTag pt.2) (fun ps =>
      match ps.1 with
      | 0 =>
        bindE (readName ps.2) (fun pn =>
        bindE (readUsize pn.2) (fun pc =>
        bindE (readI32List pc.1 pc.2) (fun pv =>
        bindE (decodeN f false n pv.2) (fun pl =>
        .ok (.arrI32 pn.1 pv.1 :: pl.1, pl.2)))))
      | 1 =>
        bindE (readName ps.2) (fun pn =>
        bindE (readUsize pn.2) (fun pc =>
        bindE (readU64List pc.1 pc.2) (fun pv =>
        bindE (decodeN f false n pv.2) (fun pl =>
        .ok (.arrU64 pn.1 pv.1 :: pl.1, pl.2)))))
      | 2 =>
        bindE (readName ps.2) (fun pn =>
        bindE (readUsize pn.2) (fun pc =>
        bindE (readF64List pc.1 pc.2) (fun pv =>
        bindE (decodeN f false n pv.2) (fun pl =>
        .ok (.arrF64 pn.1 pv.1 :: pl.1, pl.2)))))
      | 3 =>
        bindE (readName ps.2) (fun pn =>
        bindE (readUsize pn.2) (fun pc =>
        bindE (readStrList pc.1 pc.2) (fun pv =>
        bindE (decodeN f false n pv.2) (fun pl =>
        .ok (.arrStr pn.1 pv.1 :: pl.1, pl.2)))))
      | 5 =>
        bindE (readName ps.2) (fun pn =>
        bindE (readUsize pn.2) (fun pc =>
        bindE (decodeN f true pc.1 pc.2) (fun pv =>
        bindE (decodeN f false n pv.2) (fun pl =>
        .ok (.arrStruct pn.1 pv.1 :: pl.1, pl.2)))))
      | _ => .error .assertNullArgument)
    | _ => .error .badFunctionCall)

/-- The free function `serialize` (decode entry point, lines 347-386): decode
one argument from the stream and return it with the unread remainder. -/
def serialize (fuel : Nat) (s : List Item) : Except Crash (Arg × List Item) :=
  match decodeN fuel false 1 s with
  | .ok (a :: _, r) => .ok (a, r)
  | .ok ([], _) => .error .streamMismatch
  | .error e => .error e

/-- Tags registered in the decode factory, in registration order
(lines 358-365). The `file` tag is never registered, and neither is `count`. -/
def registeredTags : List Nat :=
  [e_argument_type.int32.toNat, e_argument_type.float64.toNat,
   e_argument_type.string.toNat, e_argument_type.uint64.toNat,
   e_argument_type.struct_value.toNat, e_argument_type.blob.toNat,
   e_argument_type.array.toNat]

/-- The object a variant's `get_value_internal` returns a pointer to: the
stored payload (`val` for `argument_generic` at line 138, `m_blob` for
`argument_blob` at line 96, `values` for `argument_struct` at line 218, the
element vector for `array`). -/
inductive Payload where
  | pI32 (v : Int)
  | pU64 (v : Nat)
  | pF64 (bits : Nat)
  | pStr (v : String)
  | pBlob (bs : List Nat)
  | pVecI32 (vs : List Int)
  | pVecU64 (vs : List Nat)
  | pVecF64 (vs : List Nat)
  | pVecStr (vs : List String)
  | pVecStruct (es : List Arg)
  | pChildren (cs : List Arg)

/-- get_value_internal per variant. -/
def get_value_internal : Arg → Payload
  | .i32 _ v => .pI32 v
  | .u64 _ v => .pU64 v
  | .f64 _ b => .pF64 b
  | .strA _ v => .pStr v
  | .blobA _ bs => .pBlob bs
  | .arrI32 _ vs => .pVecI32 vs
  | .arrU64 _ vs => .pVecU64 vs
  | .arrF64 _ vs => .pVecF64 vs
  | .arrStr _ vs => .pVecStr vs
  | .arrStruct _ es => .pVecStruct es
  | .structv _ cs => .pChildren cs

/-- The type parameter a caller can instantiate `as<TValue>` (line 49) or
`field<T>` with: one constructor per payload type the variants store. -/
inductive ReqType where
  | rInt32
  | rUInt64
  | rFloat64
  | rString
  | rBlob
  | rVecI32
  | rVecU64
  | rVecF64
  | rVecStr
  | rVecStruct
  | rChildren
deriving DecidableEq, Repr

/-- argument::as (lines 49-50): `return *(TValue*)get_value_internal();`.
The requested type parameter only drives the pointer cast; the source compares
no tags and has no failure path, so the result is the stored payload object for
every requested type. (Reading the stored bytes through a mismatched type is
undefined behavior in C++; what is decidable about it, and what this embedding
captures, is that the accessor never checks and never reports a mismatch.) -/
def as (a : Arg) (_req : ReqType) : Payload := get_value_internal a

/-- Outcome of `argument_struct::field` (lines 168-178). When no child's name
matches, the local `arg` stays `nullptr` and `arg->template as<T>()`
dereferences a null pointer, modelled as the distinguished `nullDeref`
outcome. -/
inductive FieldOutcome where
  | val (p : Payload)
  | nullDeref

/-- argument_struct::field (lines 168-178): linear scan over `values` in
insertion order, stopping at the first child whose name matches; then `as<T>`
on the found child, or on `nullptr` if none matched. -/
def field (cs : List Arg) (name : String) (req : ReqType) : FieldOutcome :=
  match cs.find? (fun c => c.get_name == name) with
  | some c => .val (as c req)
  | none => .nullDeref

/-- std::remove_if on the children vector (line 182): the in-place algorithm
shifts the kept (non-matching) elements to the front and returns an iterator
to the new logical end. Slots at and past the new logical end are never
written by the shift, so (elements being raw pointers) they keep the values
the original vector had at those positions; this models the de-facto behavior
of libstdc++, libc++ and MSVC (the standard leaves those slots unspecified).
Returns the physical vector contents and the new-end index. -/
def stdRemoveIf (p : Arg → Bool) (l : List Arg) : List Arg × Nat :=
  let kept := l.filter (fun a => ! p a)
  (kept ++ l.drop kept.length, kept.length)

/-- argument_struct::release(name) (lines 180-189): run `remove_if` over the
children with the name predicate; if the returned iterator is not `end()`,
take `res = *it` (the pointer sitting at the new-end slot) and erase that one
position; otherwise return null and leave the vector as is. Returns the
released pointer (if any) and the children vector afterwards. -/
def release (cs : List Arg) (name : String) : Option Arg × List Arg :=
  let r := stdRemoveIf (fun a => a.get_name == name) cs
  if h : r.2 < r.1.length then
    (some (r.1.get ⟨r.2, h⟩), r.1.eraseIdx r.2)
  else
    (none, r.1)

/-- struct_builder::get (lines 244-246): `new argument_struct(std::move(name),
std::move(values))`. Moving a `std::vector` steals its buffer and leaves the
source empty, so the call returns the new struct value owning the whole
pending list and the builder's vector afterwards, which is empty. -/
def struct_builder_get (values : List Arg) (name : String) : Arg × List Arg :=
  (.structv name values, [])

/-- The struct_builder destructor guard (line 249): `assert(values.empty())`. -/
def builderGuardHolds (values : List Arg) : Bool := values.isEmpty

/-- The tag bytes a variant's `write` emits before the name: the outer type
tag, plus (for the array variant only) the element-type tag. -/
def tagItems : Arg → List Item
  | .i32 _ _ => [.u8 e_argument_type.int32.toNat]
  | .u64 _ _ => [.u8 e_argument_type.uint64.toNat]
  | .f64 _ _ => [.u8 e_argument_type.float64.toNat]
  | .strA _ _ => [.u8 e_argument_type.string.toNat]
  | .blobA _ _ => [.u8 e_argument_type.blob.toNat]
  | .arrI32 _ _ =>
      [.u8 e_argument_type.array.toNat, .u8 e_argument_type.int32.toNat]
  | .arrU64 _ _ =>
      [.u8 e_argument_type.array.toNat, .u8 e_argument_type.uint64.toNat]
  | .arrF64 _ _ =>
      [.u8 e_argument_type.array.toNat, .u8 e_argument_type.float64.toNat]
  | .arrStr _ _ =>
      [.u8 e_argument_type.array.toNat, .u8 e_argument_type.string.toNat]
  | .arrStruct _ _ =>
      [.u8 e_argument_type.array.toNat, .u8 e_argument_type.count.toNat]
  | .structv _ _ => [.u8 e_argument_type.struct_value.toNat]

/-- Fidelity of the inlined `write`: every variant's full serialization is its
tag bytes, then its name, then exactly its `write_value` payload, matching the
shape of `argument::write` (lines 52-56) and `array::write` (lines 284-289). -/
theorem write_decomposition (a : Arg) :
    write a = tagItems a ++ (.strv a.get_name :: writeValue a) := by
  cases a <;> simp [write, writeValue, tagItems, Arg.get_name]


/-- Scalar element loops read back exactly what was written (int32). -/
theorem readI32List_round (vs : List Int) (r : List Item) :
    readI32List vs.length (vs.map Item.i32v ++ r) = .ok (vs, r) := by
  induction vs with
  | nil => simp [readI32List]
  | cons v t ih => simp [readI32List, readI32, bindE, ih]

/-- Scalar element loops read back exactly what was written (uint64). -/
theorem readU64List_round (vs : List Nat) (r : List Item) :
    readU64List vs.length (vs.map Item.u64v ++ r) = .ok (vs, r) := by
  induction vs with
  | nil => simp [readU64List]
  | cons v t ih => simp [readU64List, readU64, bindE, ih]

/-- Scalar element loops read back exactly what was written (float64). -/
theorem readF64List_round (vs : List Nat) (r : List Item) :
    readF64List vs.length (vs.map Item.f64v ++ r) = .ok (vs, r) := by
  induction vs with
  | nil => simp [readF64List]
  | cons v t ih => simp [readF64List, readF64, bindE, ih]

/-- Scalar element loops read back exactly what was written (string). -/
theorem readStrList_round (vs : List String) (r : List Item) :
    readStrList vs.length (vs.map Item.strv ++ r) = .ok (vs, r) := by
  induction vs with
  | nil => simp [readStrList]
  | cons v t ih => simp [readStrList, readStr, bindE, ih]

/-- Unfolding rule: decoding zero arguments consumes nothing. -/
theorem decodeN_args_zero (f : Nat) (s : List Item) :
    decodeN f false 0 s = .ok ([], s) := by
  cases f <;> rfl

/-- Unfolding rule: decoding zero array-of-struct elements consumes nothing. -/
theorem decodeN_elems_zero (f : Nat) (s : List Item) :
    decodeN f true 0 s = .ok ([], s) := by
  cases f <;> rfl

/-- Unfolding rule for an int32 argument at the head of the stream. -/
theorem decodeN_i32_step (f n : Nat) (nm : String) (v : Int) (s : List Item) :
    decodeN (f + 1) false (n + 1) (.u8 0 :: .strv nm :: .i32v v :: s) =
      bindE (decodeN f false n s) (fun pl => .ok (.i32 nm v :: pl.1, pl.2)) := rfl

/-- Unfolding rule for a uint64 argument at the head of the stream. -/
theorem decodeN_u64_step (f n : Nat) (nm : String) (v : Nat) (s : List Item) :
    decodeN (f + 1) false (n + 1) (.u8 1 :: .strv nm :: .u64v v :: s) =
      bindE (decodeN f false n s) (fun pl => .ok (.u64 nm v :: pl.1, pl.2)) := rfl

/-- Unfolding rule for a float64 argument at the head of the stream. -/
theorem decodeN_f64_step (f n : Nat) (nm : String) (v : Nat) (s : List Item) :
    decodeN (f + 1) false (n + 1) (.u8 2 :: .strv nm :: .f64v v :: s) =
      bindE (decodeN f false n s) (fun pl => .ok (.f64 nm v :: pl.1, pl.2)) := rfl

/-- Unfolding rule for a string argument at the head of the stream. -/
theorem decodeN_str_step (f n : Nat) (nm : String) (v : String) (s : List Item) :
    decodeN (f + 1) false (n + 1) (.u8 3 :: .strv nm :: .strv v :: s) =
      bindE (decodeN f false n s) (fun pl => .ok (.strA nm v :: pl.1, pl.2)) := rfl

/-- Unfolding rule for a struct argument at the head of the stream. -/
theorem decodeN_struct_step (f n m : Nat) (nm : String) (s : List Item) :
    decodeN (f + 1) false (n + 1) (.u8 5 :: .strv nm :: .usizev m :: s) =
      bindE (decodeN f false m s) (fun pcs =>
      bindE (decodeN f false n pcs.2) (fun pl =>
      .ok (.structv nm pcs.1 :: pl.1, pl.2))) := rfl

/-- Unfolding rule for a blob argument at the head of the stream. -/
theorem decodeN_blob_step (f n c : Nat) (nm : String) (s : List Item) :
    decodeN (f + 1) false (n + 1) (.u8 7 :: .strv nm :: .u32v c :: s) =
      bindE (readRaw c s) (fun pb =>
      bindE (decodeN f false n pb.2) (fun pl =>
      .ok (.blobA nm pb.1 :: pl.1, pl.2))) := rfl

/-- Unfolding rule for an int32 array at the head of the stream. -/
theorem decodeN_arrI32_step (f n m : Nat) (nm : String) (s : List Item) :
    decodeN (f + 1) false (n + 1) (.u8 4 :: .u8 0 :: .strv nm :: .usizev m :: s) =
      bindE (readI32List m s) (fun pv =>
      bindE (decodeN f false n pv.2) (fun pl =>
      .ok (.arrI32 nm pv.1 :: pl.1, pl.2))) := rfl

/-- Unfolding rule for a uint64 array at the head of the stream. -/
theorem decodeN_arrU64_step (f n m : Nat) (nm : String) (s : List Item) :
    decodeN (f + 1) false (n + 1) (.u8 4 :: .u8 1 :: .strv nm :: .usizev m :: s) =
      bindE (readU64List m s) (fun pv =>
      bindE (decodeN f false n pv.2) (fun pl =>
      .ok (.arrU64 nm pv.1 :: pl.1, pl.2))) := rfl

/-- Unfolding rule for a float64 array at the head of the stream. -/
theorem decodeN_arrF64_step (f n m : Nat) (nm : String) (s : List Item) :
    decodeN (f + 1) false (n + 1) (.u8 4 :: .u8 2 :: .strv nm :: .usizev m :: s) =
      bindE (readF64List m s) (fun pv =>
      bindE (decodeN f false n pv.2) (fun pl =>
      .ok (.arrF64 nm pv.1 :: pl.1, pl.2))) := rfl

/-- Unfolding rule for a string array at the head of the stream. -/
theorem decodeN_arrStr_step (f n m : Nat) (nm : String) (s : List Item) :
    decodeN (f + 1) false (n + 1) (.u8 4 :: .u8 3 :: .strv nm :: .usizev m :: s) =
      bindE (readStrList m s) (fun pv =>
      bindE (decodeN f false n pv.2) (fun pl =>
      .ok (.arrStr nm pv.1 :: pl.1, pl.2))) := rfl

/-- Unfolding rule for an array of structs at the head of the stream: the
element-type tag byte right after the outer array tag selects the
struct-elements decode loop, before the name is read. -/
theorem decodeN_arrStruct_step (f n m : Nat) (nm : String) (s : List Item) :
    decodeN (f + 1) false (n + 1) (.u8 4 :: .u8 5 :: .strv nm :: .usizev m :: s) =
      bindE (decodeN f true m s) (fun pv =>
      bindE (decodeN f false n pv.2) (fun pl =>
      .ok (.arrStruct nm pv.1 :: pl.1, pl.2))) := rfl

/-- Unfolding rule for one array-of-struct element: a size_t field count, then
that many recursive `serialize` calls, wrapped into a default-named struct. -/
theorem decodeN_elem_step (f n m : Nat) (s : List Item) :
    decodeN (f + 1) true (n + 1) (.usizev m :: s) =
      bindE (decodeN f false m s) (fun pcs =>
      bindE (decodeN f true n pcs.2) (fun pt =>
      .ok (.structv "" pcs.1 :: pt.1, pt.2))) := rfl

/-- A leading `file` tag byte (ordinal 6) has no registry entry: decode hits
the empty default-constructed `std::function` and crashes. -/
theorem decodeN_file_tag (f n : Nat) (s : List Item) :
    decodeN (f + 1) false (n + 1) (.u8 6 :: s) = .error .badFunctionCall := rfl

/-- Any tag byte of value 8 or more likewise has no registry entry. -/
theorem decodeN_high_tag (f n t : Nat) (s : List Item) :
    decodeN (f + 1) false (n + 1) (.u8 (t + 8) :: s) = .error .badFunctionCall := rfl

/-- The element-type byte the encoder actually writes for a struct array is 8
(`count`); the array factory lambda matches none of its five checks on it,
returns nullptr, and `assert(new_argument)` fires — before the name is ever
read. -/
theorem decodeN_count_subtag (f n : Nat) (s : List Item) :
    decodeN (f + 1) false (n + 1) (.u8 4 :: .u8 8 :: s) =
      .error .assertNullArgument := rfl

/-- Every single argument costs at least one unit of decoder fuel. -/
theorem argWeightPos (a : Arg) : 1 ≤ argWeight a := by
  cases a <;> simp [argWeight]

/-- Main round-trip invariant, proved by induction on the decoder fuel: with
enough fuel, decoding `n` arguments from the serialization of `n` well-formed
arguments (followed by anything) succeeds and yields their round-trip image
`normList`/`normElems`, leaving the trailing stream untouched. -/
theorem decodeN_roundtrip (f : Nat) :
    (∀ (l : List Arg) (r : List Item), wfList l = true → listWeight l ≤ f →
      decodeN f false l.length (writeList l ++ r) = .ok (normList l, r)) ∧
    (∀ (l : List Arg) (r : List Item), wfElems l = true → elemsWeight l ≤ f →
      decodeN f true l.length (writeElems l ++ r) = .ok (normElems l, r)) := by
  induction f with
  | zero =>
    constructor
    · intro l r _ hsz
      cases l with
      | nil => simp [writeList, normList, decodeN_args_zero]
      | cons c t =>
        have h1 := argWeightPos c
        simp only [listWeight] at hsz
        exact absurd hsz (by omega)
    · intro l r _ hsz
      cases l with
      | nil => simp [writeElems, normElems, decodeN_elems_zero]
      | cons e t =>
        have h1 : 1 ≤ elemsWeight (e :: t) := by
          cases e <;> simp_arith [elemsWeight]
        exact absurd hsz (by omega)
  | succ f ih =>
    obtain ⟨ihA, ihE⟩ := ih
    constructor
    · intro l r hwf hsz
      cases l with
      | nil => simp [writeList, normList, decodeN_args_zero]
      | cons c t =>
        simp only [wfList, Bool.and_eq_true] at hwf
        obtain ⟨hwfc, hwft⟩ := hwf
        have hszc : argWeight c + listWeight t ≤ f + 1 := by
          simpa only [listWeight] using hsz
        have hposc := argWeightPos c
        have ht : decodeN f false t.length (writeList t ++ r) = .ok (normList t, r) :=
          ihA t r hwft (by omega)
        cases c with
        | i32 n v =>
          simp [writeList, write, e_argument_type.toNat, decodeN_i32_step,
            bindE, ht, normList, normArg]
        | u64 n v =>
          simp [writeList, write, e_argument_type.toNat, decodeN_u64_step,
            bindE, ht, normList, normArg]
        | f64 n b =>
          simp [writeList, write, e_argument_type.toNat, decodeN_f64_step,
            bindE, ht, normList, normArg]
        | strA n v =>
          simp [writeList, write, e_argument_type.toNat, decodeN_str_step,
            bindE, ht, normList, normArg]
        | blobA n bs =>
          have hlen : bs.length % 4294967296 = bs.length :=
            Nat.mod_eq_of_lt (by simpa [wfArg] using hwfc)
          simp [writeList, write, e_argument_type.toNat, hlen, decodeN_blob_step,
            readRaw, bindE, ht, normList, normArg]
        | arrI32 n vs =>
          simp [writeList, write, e_argument_type.toNat, decodeN_arrI32_step,
            readI32List_round, bindE, ht, normList, normArg]
        | arrU64 n vs =>
          simp [writeList, write, e_argument_type.toNat, decodeN_arrU64_step,
            readU64List_round, bindE, ht, normList, normArg]
        | arrF64 n vs =>
          simp [writeList, write, e_argument_type.toNat, decodeN_arrF64_step,
            readF64List_round, bindE, ht, normList, normArg]
        | arrStr n vs =>
          simp [writeList, write, e_argument_type.toNat, decodeN_arrStr_step,
            readStrList_round, bindE, ht, normList, normArg]
        | arrStruct n es => simp [wfArg] at hwfc
        | structv n cs =>
          have hszcs : listWeight cs ≤ f := by
            simp only [argWeight] at hszc; omega
          have hcs : decodeN f false cs.length (writeList cs ++ (writeList t ++ r)) =
              .ok (normList cs, writeList t ++ r) :=
            ihA cs (writeList t ++ r) (by simpa [wfArg] using hwfc) hszcs
          simp [writeList, write, e_argument_type.toNat, decodeN_struct_step,
            bindE, hcs, ht, normList, normArg]
    · intro l r hwf hsz
      cases l with
      | nil => simp [writeElems, normElems, decodeN_elems_zero]
      | cons e t =>
        cases e with
        | structv nm cs =>
          simp only [wfElems, Bool.and_eq_true] at hwf
          obtain ⟨hwfcs, hwft⟩ := hwf
          have hszc : 1 + listWeight cs + elemsWeight t ≤ f + 1 := by
            simpa only [elemsWeight] using hsz
          have hszcs : listWeight cs ≤ f := by omega
          have ht : decodeN f true t.length (writeElems t ++ r) = .ok (normElems t, r) :=
            ihE t r hwft (by omega)
          have hcs : decodeN f false cs.length (writeList cs ++ (writeElems t ++ r)) =
              .ok (normList cs, writeElems t ++ r) :=
            ihA cs (writeElems t ++ r) hwfcs hszcs
          simp [writeElems, writeValue, decodeN_elem_step, bindE, hcs, ht, normElems]
        | i32 n v => simp [wfElems] at hwf
        | u64 n v => simp [wfElems] at hwf
        | f64 n b => simp [wfElems] at hwf
        | strA n v => simp [wfElems] at hwf
        | blobA n bs => simp [wfElems] at hwf
        | arrI32 n vs => simp [wfElems] at hwf
        | arrU64 n vs => simp [wfElems] at hwf
        | arrF64 n vs => simp [wfElems] at hwf
        | arrStr n vs => simp [wfElems] at hwf
        | arrStruct n es => simp [wfElems] at hwf

/-- Top-level round trip: with enough fuel, `serialize` (decode) applied to the
serialization of one well-formed argument followed by anything returns its
round-trip image and the untouched remainder. -/
theorem serialize_write (a : Arg) (r : List Item) (f : Nat)
    (hwf : wfArg a = true) (hsz : argWeight a ≤ f) :
    serialize f (write a ++ r) = .ok (normArg a, r) := by
  have h := (decodeN_roundtrip f).1 [a] r
    (by simp [wfList, hwf]) (by simp [listWeight]; omega)
  simp only [List.length_cons, List.length_nil, writeList, normList,
    List.append_nil] at h
  simp [serialize, h]

/-- Decoding the wire form the encoder produces for any array of structs
fails: the element-type byte is 8 (`count`), the array factory lambda returns
nullptr on it, and `assert(new_argument)` fires. -/
theorem serialize_arrStruct_crash (nm : String) (es : List Arg) (r : List Item)
    (f : Nat) :
    serialize (f + 1) (write (.arrStruct nm es) ++ r) =
      .error .assertNullArgument := by
  have h := decodeN_count_subtag f 0
    (Item.strv nm :: Item.usizev es.length :: (writeElems es ++ r))
  simp only [Nat.zero_add] at h
  simp [serialize, write, e_argument_type.toNat, h]

/-- Every element produced by the decoder's struct-elements loop carries the
empty name. -/
theorem normElems_names (es : List Arg) (hwf : wfElems es = true) :
    ∀ e ∈ normElems es, e.get_name = "" := by
  induction es with
  | nil => simp [normElems]
  | cons e t ih =>
    cases e with
    | structv nm cs =>
      simp only [wfElems, Bool.and_eq_true] at hwf
      intro x hx
      simp only [normElems, List.mem_cons] at hx
      rcases hx with hx | hx
      · subst hx; rfl
      · exact ih hwf.2 x hx
    | i32 n v => simp [wfElems] at hwf
    | u64 n v => simp [wfElems] at hwf
    | f64 n b => simp [wfElems] at hwf
    | strA n v => simp [wfElems] at hwf
    | blobA n bs => simp [wfElems] at hwf
    | arrI32 n vs => simp [wfElems] at hwf
    | arrU64 n vs => simp [wfElems] at hwf
    | arrF64 n vs => simp [wfElems] at hwf
    | arrStr n vs => simp [wfElems] at hwf
    | arrStruct n es2 => simp [wfElems] at hwf

/-- Claim C1: for every supported scalar variant (int32, uint64, float64,
string) and every value v and name n, writing the argument with write(stream)
and then decoding the same stream with the free decode function yields an
argument of the same variant whose payload equals v and whose decoded name
equals n. -/
theorem C1_scalar_roundtrip (nm : String) (vi : Int) (vu vb : Nat)
    (vs : String) (r : List Item) :
    serialize 1 (write (.i32 nm vi) ++ r) = .ok (.i32 nm vi, r) ∧
    serialize 1 (write (.u64 nm vu) ++ r) = .ok (.u64 nm vu, r) ∧
    serialize 1 (write (.f64 nm vb) ++ r) = .ok (.f64 nm vb, r) ∧
    serialize 1 (write (.strA nm vs) ++ r) = .ok (.strA nm vs, r) := by
  refine ⟨?_, ?_, ?_, ?_⟩
  · exact (serialize_write (.i32 nm vi) r 1 (by simp [wfArg])
      (by simp [argWeight])).trans (by simp [normArg])
  · exact (serialize_write (.u64 nm vu) r 1 (by simp [wfArg])
      (by simp [argWeight])).trans (by simp [normArg])
  · exact (serialize_write (.f64 nm vb) r 1 (by simp [wfArg])
      (by simp [argWeight])).trans (by simp [normArg])
  · exact (serialize_write (.strA nm vs) r 1 (by simp [wfArg])
      (by simp [argWeight])).trans (by simp [normArg])

/-- Claim C2 (code bug): decoding a stream whose leading tag byte has no entry
in the type-tag registry does not report an explicit UnknownTypeTag error to
the caller; `factory_impl[type]` default-constructs an empty `std::function`
and invoking it throws `std::bad_function_call` (modelled as the
`badFunctionCall` crash outcome), an error vocabulary in which no
UnknownTypeTag exists. No value is constructed. -/
theorem C2_unknown_tag_crashes (t f n : Nat) (s : List Item)
    (h : registeredTags.contains t = false) :
    decodeN (f + 1) false (n + 1) (.u8 t :: s) = .error .badFunctionCall ∧
    serialize (f + 1) (.u8 t :: s) = .error .badFunctionCall := by
  have hmem : t ∉ registeredTags := by
    simpa using h
  have ht : t = 6 ∨ 8 ≤ t := by
    simp [registeredTags, e_argument_type.toNat, List.mem_cons, not_or] at hmem
    omega
  rcases ht with rfl | hge
  · refine ⟨decodeN_file_tag f n s, ?_⟩
    have h6 := decodeN_file_tag f 0 s
    simp only [Nat.zero_add] at h6
    simp [serialize, h6]
  · obtain ⟨k, rfl⟩ : ∃ k, t = k + 8 := ⟨t - 8, by omega⟩
    refine ⟨decodeN_high_tag f n k s, ?_⟩
    have h8 := decodeN_high_tag f 0 k s
    simp only [Nat.zero_add] at h8
    simp [serialize, h8]

/-- Closed instance of C2's theorem at the unregistered `file` tag byte 6. -/
theorem C2_unknown_tag_crashes_witness :
    registeredTags.contains 6 = false ∧
    serialize 1 [Item.u8 6] = .error .badFunctionCall := by
  refine ⟨by decide, ?_⟩
  exact (C2_unknown_tag_crashes 6 0 0 [] (by decide)).2

/-- Claim C3 (code bug): the typed accessor `as<T>` performs no type check:
its result does not depend on the requested type parameter at all, and it
never produces a TypeMismatch failure; a mismatched access (a string argument
read with T = int32) hands back the stored payload object for the cast to
reinterpret instead of failing. -/
theorem C3_as_has_no_type_check :
    (∀ (a : Arg) (r1 r2 : ReqType), as a r1 = as a r2) ∧
    as (.strA "Base" "hi") .rInt32 = .pStr "hi" :=
  ⟨fun _ _ _ => rfl, rfl⟩

/-- Claim C4 (code bug): when a child matches, `field<T>(name)` returns the
first child in insertion order whose name matches, viewed through `as<T>`; but
when no child matches it dereferences a null pointer (the `nullDeref` crash
outcome) instead of failing with a FieldNotFound error. -/
theorem C4_field_lookup (req : ReqType) :
    field [Arg.i32 "a" 1] "b" req = .nullDeref ∧
    (∀ (pre : List Arg) (c : Arg) (post : List Arg) (nm : String),
      (∀ x ∈ pre, x.get_name ≠ nm) → c.get_name = nm →
      field (pre ++ c :: post) nm req = .val (as c req)) := by
  constructor
  · rfl
  · intro pre c post nm hpre hc
    have hnone : pre.find? (fun x => x.get_name == nm) = none :=
      List.find?_eq_none.mpr (fun x hx => by simp [hpre x hx])
    have hcons : List.find? (fun x : Arg => x.get_name == nm) (c :: post) =
        some c :=
      List.find?_cons_of_pos post (by simp [hc])
    simp [field, List.find?_append, hnone, hcons]

/-- Closed instance of C4's theorem: a missing name null-derefs, a present
name returns the first matching child. -/
theorem C4_field_lookup_witness :
    field [Arg.i32 "a" 1] "b" .rInt32 = .nullDeref ∧
    field ([Arg.i32 "a" 1] ++ Arg.i32 "b" 2 :: []) "b" .rInt32 =
      .val (as (Arg.i32 "b" 2) .rInt32) := by
  refine ⟨(C4_field_lookup .rInt32).1, ?_⟩
  exact (C4_field_lookup .rInt32).2 [Arg.i32 "a" 1] (Arg.i32 "b" 2) [] "b"
    (by decide) rfl

/-- Claim C5 (code bug): `release("x")` on children `[x, y]` removes the
matched child x from the vector, but the returned pointer is the still-owned
child y (the value `std::remove_if` left at its returned iterator), not the
removed child; x is never returned (it leaks) and y is now owned twice.
Releasing a non-existent name returns null and leaves the children
unchanged. -/
theorem C5_release_returns_wrong_child :
    release [.i32 "x" 1, .i32 "y" 2] "x" = (some (.i32 "y" 2), [.i32 "y" 2]) ∧
    release [.i32 "y" 1] "x" = (none, [.i32 "y" 1]) := by
  constructor <;> rfl

/-- Counterexample to claim C6 as stated: the element-type byte the program
writes for an array of structs is 8 (`count`, because `get_type` tests
`is_base_of` on the pointer element type and falls through), and the decoder
cannot select the struct-typed array from that byte: decoding the written
stream fails at `assert(new_argument)` instead of constructing an array. -/
theorem C6_counterexample :
    write (.arrStruct "a" []) = [.u8 4, .u8 8, .strv "a", .usizev 0] ∧
    serialize 1 [Item.u8 4, Item.u8 8, Item.strv "a", Item.usizev 0] =
      .error .assertNullArgument := by
  refine ⟨?_, rfl⟩
  simp [write, writeElems, e_argument_type.toNat]

/-- Claim C6 (amended): every array variant writes the outer array tag first,
then one element-type tag byte immediately after it and before the name, then
the name, then the payload; the decoder's array factory reads that byte before
the name is read and selects the element-typed array from it. For the four
scalar element types the byte is the element's own tag and selection succeeds;
for arrays of structs the byte written is 8 (`count`), which selects no
variant — decode fails from the two leading tag bytes alone, before the name —
while the struct-selecting byte 5 is only reachable from streams the encoder
never produces. -/
theorem C6_array_wire_order :
    (∀ (nm : String) (vs : List Int), write (.arrI32 nm vs) =
      .u8 4 :: .u8 0 :: .strv nm :: writeValue (.arrI32 nm vs)) ∧
    (∀ (nm : String) (vs : List Nat), write (.arrU64 nm vs) =
      .u8 4 :: .u8 1 :: .strv nm :: writeValue (.arrU64 nm vs)) ∧
    (∀ (nm : String) (vs : List Nat), write (.arrF64 nm vs) =
      .u8 4 :: .u8 2 :: .strv nm :: writeValue (.arrF64 nm vs)) ∧
    (∀ (nm : String) (vs : List String), write (.arrStr nm vs) =
      .u8 4 :: .u8 3 :: .strv nm :: writeValue (.arrStr nm vs)) ∧
    (∀ (nm : String) (es : List Arg), write (.arrStruct nm es) =
      .u8 4 :: .u8 8 :: .strv nm :: writeValue (.arrStruct nm es)) ∧
    (∀ (f : Nat) (nm : String) (r : List Item),
      serialize (f + 1) (.u8 4 :: .u8 0 :: .strv nm :: .usizev 0 :: r) =
        .ok (.arrI32 nm [], r) ∧
      serialize (f + 1) (.u8 4 :: .u8 1 :: .strv nm :: .usizev 0 :: r) =
        .ok (.arrU64 nm [], r) ∧
      serialize (f + 1) (.u8 4 :: .u8 2 :: .strv nm :: .usizev 0 :: r) =
        .ok (.arrF64 nm [], r) ∧
      serialize (f + 1) (.u8 4 :: .u8 3 :: .strv nm :: .usizev 0 :: r) =
        .ok (.arrStr nm [], r) ∧
      serialize (f + 1) (.u8 4 :: .u8 5 :: .strv nm :: .usizev 0 :: r) =
        .ok (.arrStruct nm [], r)) ∧
    (∀ (f n : Nat) (s : List Item),
      decodeN (f + 1) false (n + 1) (.u8 4 :: .u8 8 :: s) =
        .error .assertNullArgument) ∧
    (∀ (f : Nat) (nm : String) (es : List Arg) (r : List Item),
      serialize (f + 1) (write (.arrStruct nm es) ++ r) =
        .error .assertNullArgument) := by
  refine ⟨?_, ?_, ?_, ?_, ?_, ?_, ?_, ?_⟩
  · intro nm vs; simp [write, writeValue, e_argument_type.toNat]
  · intro nm vs; simp [write, writeValue, e_argument_type.toNat]
  · intro nm vs; simp [write, writeValue, e_argument_type.toNat]
  · intro nm vs; simp [write, writeValue, e_argument_type.toNat]
  · intro nm es; simp [write, writeValue, e_argument_type.toNat]
  · intro f nm r
    have h0 := decodeN_arrI32_step f 0 0 nm r
    have h1 := decodeN_arrU64_step f 0 0 nm r
    have h2 := decodeN_arrF64_step f 0 0 nm r
    have h3 := decodeN_arrStr_step f 0 0 nm r
    have h5 := decodeN_arrStruct_step f 0 0 nm r
    simp only [Nat.zero_add, readI32List, readU64List, readF64List, readStrList,
      decodeN_args_zero, decodeN_elems_zero, bindE] at h0 h1 h2 h3 h5
    exact ⟨by simp [serialize, h0], by simp [serialize, h1], by simp [serialize, h2],
      by simp [serialize, h3], by simp [serialize, h5]⟩
  · intro f n s
    exact decodeN_count_subtag f n s
  · intro f nm es r
    exact serialize_arrStruct_crash nm es r f

/-- Counterexample to claim C7 as stated: encoding an array of one struct
element and decoding the stream does not yield an equal array — it yields no
array at all. The written element-type byte is 8 (`count`), the decode
factory's array lambda returns nullptr on it, and `assert(new_argument)`
fires. -/
theorem C7_counterexample :
    serialize 1 (write (.arrStruct "arr" [.structv "elem" []])) =
      .error .assertNullArgument ∧
    serialize 1 (write (.arrStruct "arr" [.structv "elem" []])) ≠
      .ok (.arrStruct "arr" [.structv "elem" []], []) := by
  have hw : write (.arrStruct "arr" [.structv "elem" []]) =
      [.u8 4, .u8 8, .strv "arr", .usizev 1, .usizev 0] := by
    simp [write, writeElems, writeValue, writeList, e_argument_type.toNat]
  have he : serialize 1 [Item.u8 4, Item.u8 8, Item.strv "arr", Item.usizev 1,
      Item.usizev 0] = .error .assertNullArgument := rfl
  rw [hw, he]
  exact ⟨rfl, by simp⟩

/-- Claim C7 (amended): for the four scalar element types (int32, uint64,
float64, string), encoding an ordered sequence of N values and decoding yields
an array of the same length whose elements are element-wise equal to the
originals in the same order. For the struct element type no round trip exists:
the encoder writes element-type byte 8 (`count`, from `get_type` testing
`is_base_of` on the pointer element type), the decode factory's array lambda
returns nullptr on that byte, and `assert(new_argument)` fires. -/
theorem C7_array_roundtrip (nm : String) (r : List Item) :
    (∀ vs : List Int,
      serialize 1 (write (.arrI32 nm vs) ++ r) = .ok (.arrI32 nm vs, r)) ∧
    (∀ vs : List Nat,
      serialize 1 (write (.arrU64 nm vs) ++ r) = .ok (.arrU64 nm vs, r)) ∧
    (∀ vs : List Nat,
      serialize 1 (write (.arrF64 nm vs) ++ r) = .ok (.arrF64 nm vs, r)) ∧
    (∀ vs : List String,
      serialize 1 (write (.arrStr nm vs) ++ r) = .ok (.arrStr nm vs, r)) ∧
    (∀ (es : List Arg) (f : Nat),
      serialize (f + 1) (write (.arrStruct nm es) ++ r) =
        .error .assertNullArgument) := by
  refine ⟨?_, ?_, ?_, ?_, ?_⟩
  · intro vs
    exact (serialize_write (.arrI32 nm vs) r 1 (by simp [wfArg])
      (by simp [argWeight])).trans (by simp [normArg])
  · intro vs
    exact (serialize_write (.arrU64 nm vs) r 1 (by simp [wfArg])
      (by simp [argWeight])).trans (by simp [normArg])
  · intro vs
    exact (serialize_write (.arrF64 nm vs) r 1 (by simp [wfArg])
      (by simp [argWeight])).trans (by simp [normArg])
  · intro vs
    exact (serialize_write (.arrStr nm vs) r 1 (by simp [wfArg])
      (by simp [argWeight])).trans (by simp [normArg])
  · intro es f
    exact serialize_arrStruct_crash nm es r f

/-- Claim C8: `build(name)` (the source's `struct_builder::get`) produces a
struct value owning the entire pending list under the given name, and the
builder afterwards holds no pending children, so its destructor guard
`assert(values.empty())` holds. -/
theorem C8_builder_transfer (vs : List Arg) (nm : String) :
    struct_builder_get vs nm = (.structv nm vs, []) ∧
    (struct_builder_get vs nm).1.get_name = nm ∧
    get_value_internal (struct_builder_get vs nm).1 = .pChildren vs ∧
    builderGuardHolds (struct_builder_get vs nm).2 = true :=
  ⟨rfl, rfl, rfl, rfl⟩

/-- Claim C9: the tag enumeration places `file` at ordinal 6 between
`struct_value` (5) and `blob` (7); `file` is never registered in the decode
factory; the blob variant's wire tag byte is therefore 7, not 6; and a stream
whose leading tag byte is 6 takes the missing-registry-entry path of decode. -/
theorem C9_file_tag_unimplemented :
    e_argument_type.struct_value.toNat = 5 ∧
    e_argument_type.file.toNat = 6 ∧
    e_argument_type.blob.toNat = 7 ∧
    registeredTags.contains e_argument_type.file.toNat = false ∧
    (∀ (nm : String) (bs : List Nat),
      (write (.blobA nm bs)).head? = some (.u8 7)) ∧
    (∀ (f : Nat) (s : List Item),
      serialize (f + 1) (.u8 6 :: s) = .error .badFunctionCall) := by
  refine ⟨rfl, rfl, rfl, by decide, ?_, ?_⟩
  · intro nm bs
    simp [write, e_argument_type.toNat]
  · intro f s
    have h6 := decodeN_file_tag f 0 s
    simp only [Nat.zero_add] at h6
    simp [serialize, h6]

/-- Counterexample to claim C10 as stated: encoding an array of one struct
element named "named" and decoding the stream yields nothing at all — decode
fails at `assert(new_argument)` on the written element-type byte 8 — so in
particular it does not yield an array with an empty-named element. -/
theorem C10_counterexample :
    serialize 1 (write (.arrStruct "a" [.structv "named" []])) =
      .error .assertNullArgument ∧
    serialize 1 (write (.arrStruct "a" [.structv "named" []])) ≠
      .ok (.arrStruct "a" [.structv "" []], []) := by
  have hw : write (.arrStruct "a" [.structv "named" []]) =
      [.u8 4, .u8 8, .strv "a", .usizev 1, .usizev 0] := by
    simp [write, writeElems, writeValue, writeList, e_argument_type.toNat]
  have he : serialize 1 [Item.u8 4, Item.u8 8, Item.strv "a", Item.usizev 1,
      Item.usizev 0] = .error .assertNullArgument := rfl
  rw [hw, he]
  exact ⟨rfl, by simp⟩

/-- Claim C10 (amended): element `write_value` writes only the field list — it
is independent of the element's name — and the decoder's struct-elements loop
never reads a name, so a decode that reaches that loop (a stream carrying
element-type byte 5 after the array tag, followed by the encoder's element
payloads) yields elements whose names are all the empty string regardless of
the original names. The encoder itself, however, writes element-type byte 8
(`count`), so encoding and then decoding an array of structs crashes at
`assert(new_argument)` instead of yielding anything. -/
theorem C10_element_names_reset (nm : String) (es : List Arg) (r : List Item)
    (f : Nat) (hwf : wfElems es = true) (hsz : elemsWeight es ≤ f) :
    (∀ (nm1 nm2 : String) (cs : List Arg),
      writeValue (.structv nm1 cs) = writeValue (.structv nm2 cs)) ∧
    decodeN (f + 1) false 1
        (.u8 4 :: .u8 5 :: .strv nm :: .usizev es.length :: (writeElems es ++ r)) =
      .ok ([.arrStruct nm (normElems es)], r) ∧
    (∀ e ∈ normElems es, e.get_name = "") ∧
    serialize (f + 1) (write (.arrStruct nm es) ++ r) =
      .error .assertNullArgument := by
  refine ⟨?_, ?_, normElems_names es hwf, serialize_arrStruct_crash nm es r f⟩
  · intro nm1 nm2 cs
    simp [writeValue]
  · have hel := (decodeN_roundtrip f).2 es r hwf hsz
    have hs := decodeN_arrStruct_step f 0 es.length nm (writeElems es ++ r)
    simp only [Nat.zero_add] at hs
    rw [hs, hel]
    simp [bindE, decodeN_args_zero]

/-- Closed instance of C10's theorem: a handcrafted struct-array stream
carrying the encoder's element payload for an element named "named" decodes to
an element named "", and the actually encoded form of the same array crashes
on decode. -/
theorem C10_element_names_reset_witness :
    wfElems [Arg.structv "named" []] = true ∧
    decodeN 3 false 1
        [Item.u8 4, Item.u8 5, Item.strv "a", Item.usizev 1, Item.usizev 0] =
      .ok ([.arrStruct "a" [.structv "" []]], []) ∧
    serialize 3 (write (.arrStruct "a" [.structv "named" []]) ++ []) =
      .error .assertNullArgument := by
  have h := C10_element_names_reset "a" [Arg.structv "named" []] [] 2
    (by simp [wfElems, wfList]) (by simp [elemsWeight, listWeight])
  refine ⟨by simp [wfElems, wfList], ?_, h.2.2.2⟩
  have h1 := h.2.1
  simpa [writeElems, writeValue, writeList, normElems, normList] using h1

end HopeProto
